import Mathlib

/-!
Verification of the go-dexec container-backed command execution library.

The Go sources are shallowly embedded: pure helpers become Lean functions,
the mutable `GenericCmd` object becomes an explicit state record threaded
through the lifecycle operations, and the runtime-side effects of a
strategy (containerd / docker API calls, stream writes, closing of pipe
writers) are captured in an explicit `World` record.  Strategy methods are
modelled by an `Execution` record mirroring the Go `Execution[T]`
interface; the containerd strategy's option setters and `cleanup` are
translated from `containerd_execution.go`.
-/

namespace Dexec

/-- Errors, mirroring Go `error` values as they appear in the library:
plain `errors.New` messages, the `ExitError{ExitCode, Stderr}` sentinel,
the containerd `NotFound` class, and `fmt.Errorf("...: %w", err)`
wrapping. -/
inductive GError where
  | msg (s : String)
  | exit (code : Int) (stderr : Option (List Nat))
  | notFound
  | wrapped (pre : String) (e : GError)
deriving DecidableEq, Repr

/-- Go `errdefs.IsNotFound`, which unwraps wrapped errors (`errors.Is`). -/
def GError.isNotFound : GError → Bool
  | .notFound => true
  | .wrapped _ e => e.isNotFound
  | _ => false

/-- The `errors.New("dexec: not started")` value returned by `Wait`. -/
def notStartedErr : GError := .msg "dexec: not started"

/-- The `errors.New("dexec: already started")` value returned by `Start`. -/
def alreadyStartedErr : GError := .msg "dexec: already started"

/-- An `io.Writer` handed to the command: the discarding sink substituted
for nil, an internal `bytes.Buffer`, a library-created pipe writer end, or
a caller-supplied sink.  Identities (`id`) let us track individual pipe
writers and buffers. -/
inductive Writer where
  | discard
  | buffer (id : Nat)
  | pipeW (id : Nat)
  | caller (id : Nat)
deriving DecidableEq, Repr

/-- An `io.Reader`: the `emptyReader` substituted for nil stdin, a
library-created pipe reader end, or a caller-supplied source. -/
inductive Reader where
  | empty
  | pipeR (id : Nat)
  | caller (id : Nat)
deriving DecidableEq, Repr

/-- The world outside the command object: contents of the internal
`bytes.Buffer`s (indexed by buffer id) and the ordered log of `Close()`
calls issued on writers.  Writes to pipe writers, caller sinks and the
discard sink leave the world unchanged — the library never reads them
back. -/
structure World where
  bufs : Nat → List Nat
  closed : List Writer

/-- Write `bytes` to a destination writer; only internal buffers are
observable in the world. -/
def World.write (w : World) (dst : Writer) (bytes : List Nat) : World :=
  match dst with
  | .buffer i => { w with bufs := fun j => if j = i then w.bufs j ++ bytes else w.bufs j }
  | _ => w

/-- Go `closeFds(l)`: calls `Close()` on each closer in order. -/
def closeFds (l : List Writer) (w : World) : World :=
  { w with closed := w.closed ++ l }

/-- The Go `Execution[T]` strategy interface.  Each method takes and
returns the strategy's internal state `σ` (the Go methods mutate the
receiver); `run` additionally touches the world (it attaches the streams,
through which the process's output is written). -/
structure Execution (σ : Type) where
  create : σ → List String → Option GError × σ
  run : σ → Reader → Writer → Writer → World → Option GError × σ × World
  wait : σ → Int × Option GError × σ
  setEnv : σ → List String → Option GError × σ
  setDir : σ → String → Option GError × σ
  getID : σ → String
  kill : σ → Option GError × σ
  cleanup : σ → Option GError × σ

/-- The `GenericCmd[T]` record.  `Env = none` is a nil slice, `Stdin/
Stdout/Stderr = none` are nil interface values.  `fresh` supplies
identities for newly created pipes and buffers. -/
structure GenericCmd where
  Path : String
  Args : List String
  Env : Option (List String)
  Dir : String
  Stdin : Option Reader
  Stdout : Option Writer
  Stderr : Option Writer
  started : Bool
  closeAfterWait : List Writer
  fresh : Nat

/-- The `if g.Dir != "" { g.Method.setDir(g.Dir) }` step of `Start`. -/
def forwardDir {σ : Type} (M : Execution σ) (g : GenericCmd) (s : σ) :
    Option GError × σ :=
  if g.Dir ≠ "" then M.setDir s g.Dir else (none, s)

/-- The `if g.Env != nil { g.Method.setEnv(g.Env) }` step of `Start`. -/
def forwardEnv {σ : Type} (M : Execution σ) (g : GenericCmd) (s : σ) :
    Option GError × σ :=
  match g.Env with
  | some env => M.setEnv s env
  | none => (none, s)

/-- Go `GenericCmd.Start`: forwards `Dir` and `Env` to the strategy, then
checks the `started` flag, sets it, substitutes defaults for nil streams,
builds `[Path, Args...]` and calls `Strategy.create` then `Strategy.run`.
Returns the error (if any) together with the updated command, strategy
state and world. -/
def Start {σ : Type} (M : Execution σ) (g : GenericCmd) (s : σ) (w : World) :
    Option GError × GenericCmd × σ × World :=
  match forwardDir M g s with
  | (some e, s1) => (some e, g, s1, w)
  | (none, s1) =>
    match forwardEnv M g s1 with
    | (some e, s2) => (some e, g, s2, w)
    | (none, s2) =>
      if g.started then (some alreadyStartedErr, g, s2, w)
      else
        let stdin := g.Stdin.getD Reader.empty
        let stdout := g.Stdout.getD Writer.discard
        let stderr := g.Stderr.getD Writer.discard
        let g1 := { g with started := true, Stdin := some stdin,
                           Stdout := some stdout, Stderr := some stderr }
        match M.create s2 (g.Path :: g.Args) with
        | (some e, s3) => (some e, g1, s3, w)
        | (none, s3) =>
          match M.run s3 stdin stdout stderr w with
          | (e, s4, w1) => (e, g1, s4, w1)

/-- Go `GenericCmd.Wait`: `defer closeFds(g.closeAfterWait)`; errors with
`NotStarted` when the flag is unset; otherwise asks the strategy for the
exit code, propagating a non-nil error verbatim and turning a non-zero
exit code into `ExitError`. -/
def Wait {σ : Type} (M : Execution σ) (g : GenericCmd) (s : σ) (w : World) :
    Option GError × GenericCmd × σ × World :=
  if !g.started then
    (some notStartedErr, g, s, closeFds g.closeAfterWait w)
  else
    match M.wait s with
    | (_, some e, s1) => (some e, g, s1, closeFds g.closeAfterWait w)
    | (ec, none, s1) =>
      if ec ≠ 0 then
        (some (GError.exit ec none), g, s1, closeFds g.closeAfterWait w)
      else
        (none, g, s1, closeFds g.closeAfterWait w)

/-- Go `GenericCmd.Run`: `Start` then `Wait`; a `Start` error returns
immediately. -/
def Run {σ : Type} (M : Execution σ) (g : GenericCmd) (s : σ) (w : World) :
    Option GError × GenericCmd × σ × World :=
  match Start M g s w with
  | (some e, g1, s1, w1) => (some e, g1, s1, w1)
  | (none, g1, s1, w1) => Wait M g1 s1 w1

/-- Go `GenericCmd.Output`: rejects a pre-set `Stdout`; allocates a stdout
buffer and, when `Stderr` is nil, a stderr capture buffer; runs; attaches
captured stderr bytes to an `ExitError`; returns the stdout buffer's
bytes. -/
def Output {σ : Type} (M : Execution σ) (g : GenericCmd) (s : σ) (w : World) :
    Option GError × List Nat × GenericCmd × σ × World :=
  if g.Stdout.isSome then
    (some (GError.msg "dexec: Stdout already set"), [], g, s, w)
  else
    let bOut := g.fresh
    let bErr := g.fresh + 1
    let captureErr := g.Stderr.isNone
    let g1 := { g with Stdout := some (Writer.buffer bOut),
                       Stderr := if captureErr then some (Writer.buffer bErr) else g.Stderr,
                       fresh := g.fresh + 2 }
    let w0 : World := { w with bufs := fun j => if j = bOut || j = bErr then [] else w.bufs j }
    match Run M g1 s w0 with
    | (err, g2, s2, w2) =>
      let err1 := match err with
        | some (GError.exit code _) =>
          if captureErr then some (GError.exit code (some (w2.bufs bErr))) else err
        | _ => err
      (err1, w2.bufs bOut, g2, s2, w2)

/-- Go `GenericCmd.StdinPipe`: rejects a pre-set `Stdin`; creates a pipe,
stores the reader end as `Stdin` and returns the (reader, writer) pair.
The writer is NOT registered in `closeAfterWait`. -/
def StdinPipe (g : GenericCmd) : Option GError × Option (Reader × Writer) × GenericCmd :=
  if g.Stdin.isSome then
    (some (GError.msg "dexec: Stdin already set"), none, g)
  else
    (none, some (Reader.pipeR g.fresh, Writer.pipeW g.fresh),
      { g with Stdin := some (Reader.pipeR g.fresh), fresh := g.fresh + 1 })

/-- Go `GenericCmd.StdoutPipe`: rejects a pre-set `Stdout`; creates a pipe,
stores the writer end as `Stdout`, appends it to `closeAfterWait` and
returns the (reader, writer) pair. -/
def StdoutPipe (g : GenericCmd) : Option GError × Option (Reader × Writer) × GenericCmd :=
  if g.Stdout.isSome then
    (some (GError.msg "dexec: Stdout already set"), none, g)
  else
    (none, some (Reader.pipeR g.fresh, Writer.pipeW g.fresh),
      { g with Stdout := some (Writer.pipeW g.fresh),
               closeAfterWait := g.closeAfterWait ++ [Writer.pipeW g.fresh],
               fresh := g.fresh + 1 })

/-- Go `GenericCmd.StderrPipe`: as `StdoutPipe`, for `Stderr`. -/
def StderrPipe (g : GenericCmd) : Option GError × Option (Reader × Writer) × GenericCmd :=
  if g.Stderr.isSome then
    (some (GError.msg "dexec: Stderr already set"), none, g)
  else
    (none, some (Reader.pipeR g.fresh, Writer.pipeW g.fresh),
      { g with Stderr := some (Writer.pipeW g.fresh),
               closeAfterWait := g.closeAfterWait ++ [Writer.pipeW g.fresh],
               fresh := g.fresh + 1 })

/-! ### Namespaced-task (containerd) strategy: option setters, id generation, cleanup -/

/-- The caller identity tuple (`CommandDetails`), int64-valued. -/
structure CommandDetails where
  ExecutorId : Int
  ChainExecutorId : Int
  ResultId : Int

/-- Go `CreateTaskOptions` — the fields the setters and the id generator
touch (the containerd image/mount/timeout fields play no role in the
claims settled here). -/
structure CreateTaskOptions where
  Env : List String
  WorkingDir : String
  CommandDetails : CommandDetails

/-- Go `createTask.setEnv`: first-writer-wins on `opts.Env`
(`len(t.opts.Env) > 0` refuses). -/
def setEnvCT (opts : CreateTaskOptions) (env : List String) :
    Option GError × CreateTaskOptions :=
  if opts.Env.length > 0 then
    (some (GError.msg "dexec: Config.Env already set"), opts)
  else
    (none, { opts with Env := env })

/-- Go `createTask.setDir`: first-writer-wins on `opts.WorkingDir`. -/
def setDirCT (opts : CreateTaskOptions) (dir : String) :
    Option GError × CreateTaskOptions :=
  if opts.WorkingDir ≠ "" then
    (some (GError.msg "dexec: Config.WorkingDir already set"), opts)
  else
    (none, { opts with WorkingDir := dir })

/-- The `createTask` strategy over its options state.  `create`, `run`,
`wait`, `kill` and `cleanup` talk to the containerd API; their outcomes
are supplied as oracles and, as in the source, they never modify the
options record.  The setters are the translated `setEnv`/`setDir`. -/
def ctExec (crRes rnRes : Option GError) (wtRes : Int × Option GError) :
    Execution CreateTaskOptions where
  create := fun s _ => (crRes, s)
  run := fun s _ _ _ w => (rnRes, s, w)
  wait := fun s => (wtRes.1, wtRes.2, s)
  setEnv := setEnvCT
  setDir := setDirCT
  getID := fun _ => ""
  kill := fun s => (none, s)
  cleanup := fun s => (none, s)

/-- The containerd API outcomes `cleanup` observes: whether a lease
cancellation (`doneFunc`) and a context were stored, whether a CNI network
was set up, and the errors (if any) returned by `task.Delete` and
`container.Delete`. -/
structure CleanupEnv where
  hasDoneFunc : Bool
  hasCtx : Bool
  hasCni : Bool
  cniRes : Option GError
  taskDeleteRes : Option GError
  containerDeleteRes : Option GError

/-- Observable effects of one `cleanup` call. -/
structure CleanupLog where
  leaseReleased : Bool
  taskDeleteCalled : Bool
  containerDeleteCalled : Bool
deriving DecidableEq, Repr

/-- Go `createTask.cleanup`: deferred lease release (guarded on a non-nil
`doneFunc` and context); best-effort CNI removal (result only logged);
`task.Delete(WithProcessKill)` — a non-NotFound error returns wrapped as
"error deleting task" without touching the container; then
`container.Delete(WithSnapshotCleanup)` — nil or NotFound yields nil,
anything else returns wrapped as "error deleting container". -/
def cleanupCT (env : CleanupEnv) : Option GError × CleanupLog :=
  let released := env.hasDoneFunc && env.hasCtx
  match env.taskDeleteRes with
  | some e =>
    if !e.isNotFound then
      (some (GError.wrapped "error deleting task" e),
        ⟨released, true, false⟩)
    else
      match env.containerDeleteRes with
      | none => (none, ⟨released, true, true⟩)
      | some e2 =>
        if e2.isNotFound then (none, ⟨released, true, true⟩)
        else (some (GError.wrapped "error deleting container" e2), ⟨released, true, true⟩)
  | none =>
    match env.containerDeleteRes with
    | none => (none, ⟨released, true, true⟩)
    | some e2 =>
      if e2.isNotFound then (none, ⟨released, true, true⟩)
      else (some (GError.wrapped "error deleting container" e2), ⟨released, true, true⟩)

/-- Fuel-driven floor of the base-2 logarithm (structural recursion, so
that concrete instances reduce). -/
def log2fuel : Nat → Nat → Nat
  | 0, _ => 0
  | fuel + 1, n => if n ≤ 1 then 0 else log2fuel fuel (n / 2) + 1

/-- Floor of `log₂ n` (0 at 0). -/
def natLog2 (n : Nat) : Nat := log2fuel n n

/-- Round a natural number to the nearest `float64` (53-bit significand,
round-half-to-even); exact below `2^53`.  This is `float64(v)` /
`math.Abs` for integral magnitudes. -/
def roundNat53 (n : Nat) : Nat :=
  if n ≤ 2 ^ 53 then n
  else
    let e := natLog2 n - 52
    let q := n / 2 ^ e
    let r := n % 2 ^ e
    let half := 2 ^ e / 2
    if half < r ∨ (r = half ∧ q % 2 = 1) then (q + 1) * 2 ^ e else q * 2 ^ e

/-- Go `abs(v int64) int64`: non-negative values are returned as-is; negative
values go through `math.Abs(float64(v))` and back to `int64`, i.e. through
a `float64` rounding.  When the rounded magnitude exceeds `MaxInt64` the
float-to-int conversion overflows, which Go leaves implementation-defined;
we model the common amd64 result `MinInt64`. -/
def goAbs (v : Int) : Int :=
  if 0 ≤ v then v
  else
    let f := roundNat53 v.natAbs
    if f ≤ 2 ^ 63 - 1 then (f : Int) else -(2 ^ 63)

/-- Go `createTask.generateContainerId`: `fmt.Sprintf("chains-%d-%d-%d-%s",
abs(ChainExecutorId), abs(ExecutorId), abs(ResultId), suffix)` where the
suffix is `RandomString(6)`.  `RandomString` itself is not part of the
sources; the suffix is passed in as a parameter (per the spec it is a
6-character alphabetic token). -/
def generateContainerId (details : CommandDetails) (suffix : String) : String :=
  "chains-" ++ toString (goAbs details.ChainExecutorId) ++ "-" ++
    toString (goAbs details.ExecutorId) ++ "-" ++
    toString (goAbs details.ResultId) ++ "-" ++ suffix

/-! ### Mount translation -/

/-- The neutral `Mount` record (`Type` is a Lean keyword, hence `Type'`). -/
structure Mount where
  Type' : String
  Source : String
  Destination : String
  Options : List String
deriving DecidableEq, Repr

/-- Go `docker.HostMount` as populated by `convertMount` (Type, Source,
Target; no Options field is set). -/
structure HostMount where
  Type' : String
  Source : String
  Target : String
deriving DecidableEq, Repr

/-- Go `specs.Mount` (OCI mount shape). -/
structure SpecsMount where
  Type' : String
  Source : String
  Destination : String
  Options : List String
deriving DecidableEq, Repr

/-- Go `convertMount[specs.Mount]`. -/
def convertMountOCI (m : Mount) : SpecsMount :=
  { Type' := m.Type', Source := m.Source, Destination := m.Destination,
    Options := m.Options }

/-- Go `convertMount[docker.HostMount]`: `Target = Destination`, Options
discarded. -/
def convertMountDocker (m : Mount) : HostMount :=
  { Type' := m.Type', Source := m.Source, Target := m.Destination }

/-- Does `needle` occur as a prefix of `hay`? (`List.isPrefixOf` with
decidable equality.) -/
def containsSub (hay needle : List Char) : Bool :=
  match hay with
  | [] => needle.isEmpty
  | _ :: t => needle.isPrefixOf hay || containsSub t needle

/-- Go `strings.Contains`. -/
def strContains (s sub : String) : Bool :=
  containsSub s.data sub.data

/-- Go `filterMounts[docker.HostMount]`: the loop dropping every mount whose
destination contains "resolv.conf". -/
def filterMountsDocker (ms : List Mount) : List Mount :=
  ms.foldl (fun acc m =>
    if strContains m.Destination "resolv.conf" then acc else acc ++ [m]) []

/-- Go `filterMounts[specs.Mount]`: the default branch, identity. -/
def filterMountsOCI (ms : List Mount) : List Mount := ms

/-- The daemon-side mount pipeline of `getDockerExecution`:
`convertMounts[docker.HostMount](filterMounts[docker.HostMount](ms))`. -/
def dockerMountsOf (ms : List Mount) : List HostMount :=
  (filterMountsDocker ms).map convertMountDocker

/-- The containerd-side mount pipeline of `getContainerdExecution`. -/
def containerdMountsOf (ms : List Mount) : List SpecsMount :=
  (filterMountsOCI ms).map convertMountOCI

/-- Inverse reading of the OCI shape back into the neutral form, taken
from the spec's field correspondence (used to state the round-trip). -/
def neutralOfSpecsMount (s : SpecsMount) : Mount :=
  { Type' := s.Type', Source := s.Source, Destination := s.Destination,
    Options := s.Options }

/-! ### Stats over the containerd client -/

/-- Task status buckets. -/
inductive TaskStatus where
  | stopped
  | running
  | created
  | paused
  | pausing
  | unknown
deriving DecidableEq, Repr

/-- One owned container as the stats loop observes it: `labels = none`
models a failing `Labels()` call; `taskStatus = none` a failing `Task()`
call; `some none` a failing `Status()` call. -/
structure CContainer where
  labels : Option (List (String × String))
  taskStatus : Option (Option TaskStatus)

/-- The `Stats` record. -/
structure Stats where
  Running : Nat := 0
  Created : Nat := 0
  Stopped : Nat := 0
  Paused : Nat := 0
  Pausing : Nat := 0
  Unknown : Nat := 0
  DeadlineExceeded : Nat := 0
  Errors : Nat := 0
deriving DecidableEq, Repr

/-- The `time.RFC3339` layout constant. -/
def rfc3339Layout : String := "2006-01-02T15:04:05Z07:00"

/-- Label lookup (`labels["chains/deadline"]`). -/
def lookupLabel (ls : List (String × String)) (k : String) : Option String :=
  (ls.find? (fun p => p.1 = k)).map (fun p => p.2)

/-- The deadline-label step of the stats loop over one container, exactly
as written in the source: `time.Parse(deadline, time.RFC3339)` — note the
label VALUE is passed in the layout position and the RFC3339 layout
constant in the value position.  `parse` is Go's `time.Parse` as an
oracle `parse layout value`, `now` the current instant. -/
def deadlineStep (parse : String → String → Option Int) (now : Int)
    (ls : List (String × String)) (st : Stats) : Stats :=
  match lookupLabel ls "chains/deadline" with
  | none => st
  | some deadline =>
    match parse deadline rfc3339Layout with
    | some t => if t < now then { st with DeadlineExceeded := st.DeadlineExceeded + 1 } else st
    | none => { st with Errors := st.Errors + 1 }

/-- The task-status step of the stats loop over one container. -/
def statusStep (c : CContainer) (st : Stats) : Stats :=
  match c.taskStatus with
  | none => { st with Errors := st.Errors + 1 }
  | some none => { st with Errors := st.Errors + 1 }
  | some (some ts) =>
    match ts with
    | .stopped => { st with Stopped := st.Stopped + 1 }
    | .running => { st with Running := st.Running + 1 }
    | .created => { st with Created := st.Created + 1 }
    | .paused => { st with Paused := st.Paused + 1 }
    | .pausing => { st with Pausing := st.Pausing + 1 }
    | .unknown => { st with Unknown := st.Unknown + 1 }

/-- One iteration of the container loop in `getContainerdStats`. -/
def statsStep (parse : String → String → Option Int) (now : Int)
    (st : Stats) (c : CContainer) : Stats :=
  let st1 := match c.labels with
    | some ls => deadlineStep parse now ls st
    | none => { st with Errors := st.Errors + 1 }
  statusStep c st1

/-- Go `getContainerdStats` over the listed owned containers. -/
def getContainerdStats (parse : String → String → Option Int) (now : Int)
    (cs : List CContainer) : Stats :=
  cs.foldl (statsStep parse now) {}

/-! ### The `chains-\d+-\d+-\d+-[A-Za-z]{6}` matcher -/

/-- Consume one-or-more decimal digits followed by a literal hyphen;
return the remainder, or fail. -/
def digitsThenDash (l : List Char) : Option (List Char) :=
  match l.takeWhile Char.isDigit, l.dropWhile Char.isDigit with
  | [], _ => none
  | _ :: _, '-' :: rest => some rest
  | _, _ => none

/-- Tail of the matcher: three `\d+-` groups then the 6-alpha suffix. -/
def matchesChainsTail (rest : List Char) : Bool :=
  match digitsThenDash rest with
  | none => false
  | some r1 =>
    match digitsThenDash r1 with
    | none => false
    | some r2 =>
      match digitsThenDash r2 with
      | none => false
      | some r3 => r3.length = 6 && r3.all Char.isAlpha

/-- Anchored matcher over the character list. -/
def matchesChainsList : List Char → Bool
  | 'c' :: 'h' :: 'a' :: 'i' :: 'n' :: 's' :: '-' :: rest => matchesChainsTail rest
  | _ => false

/-- Anchored matcher for the regular expression
`chains-\d+-\d+-\d+-[A-Za-z]{6}`. -/
def matchesChainsName (s : String) : Bool :=
  matchesChainsList s.data

/-! ### Concrete fixtures used by witnesses and counterexamples -/

/-- An empty world. -/
def w0 : World := ⟨fun _ => [], []⟩

/-- Fresh `CreateTaskOptions` (no env, no working dir). -/
def opts0 : CreateTaskOptions := ⟨[], "", ⟨0, 0, 0⟩⟩

/-- A freshly constructed command (as built by `Docker.Command` /
`Containerd.Command`): only path and args populated. -/
def cmd0 : GenericCmd :=
  ⟨"echo", ["hi"], none, "", none, none, none, false, [], 0⟩

/-- The command `cmd0` with the `started` flag already set. -/
def cmdStarted : GenericCmd := { cmd0 with started := true }

/-- A strategy whose containerd interactions all succeed and whose task
exits cleanly. -/
def mockOk : Execution CreateTaskOptions := ctExec none none (0, none)

/-- A strategy whose `create` fails (e.g. the image is missing) and whose
`wait` would report a clean exit. -/
def mockCreateFails : Execution CreateTaskOptions :=
  ctExec (some (GError.msg "error creating container")) none (0, none)

/-- A pure-IO strategy for exercising `Output`: `run` copies the
process's stdout/stderr byte streams into whatever sinks it was handed
and `wait` reports the given outcome. -/
def mockRunExec (outB errB : List Nat) (wt : Int × Option GError) : Execution Unit where
  create := fun s _ => (none, s)
  run := fun s _ o e w => (none, s, (w.write o outB).write e errB)
  wait := fun s => (wt.1, wt.2, s)
  setEnv := fun s _ => (none, s)
  setDir := fun s _ => (none, s)
  getID := fun _ => ""
  kill := fun s => (none, s)
  cleanup := fun s => (none, s)

/-- First `Start` of a command carrying a working directory, against the
containerd strategy (all API calls succeeding). -/
def firstStartDir : Option GError × GenericCmd × CreateTaskOptions × World :=
  Start mockOk { cmd0 with Dir := "/w" } opts0 w0

/-!
## Theorems
-/

/-- C1 (counterexample): a command whose strategy `create` fails.  `Start`
returns the create error, yet the subsequent `Wait` does NOT return the
NotStarted error (here it returns nil): contrary to the claim, a command
whose `Start` failed in the create step IS considered started by `Wait`. -/
theorem start_create_fail_wait_not_notStarted :
    (Start mockCreateFails cmd0 opts0 w0).1 = some (GError.msg "error creating container") ∧
    (Wait mockCreateFails (Start mockCreateFails cmd0 opts0 w0).2.1
        (Start mockCreateFails cmd0 opts0 w0).2.2.1 w0).1 ≠ some notStartedErr ∧
    (Wait mockCreateFails (Start mockCreateFails cmd0 opts0 w0).2.1
        (Start mockCreateFails cmd0 opts0 w0).2.2.1 w0).1 = none := by
  refine ⟨rfl, ?_, rfl⟩
  intro h
  simp [Start, Wait, mockCreateFails, ctExec, cmd0, opts0, forwardDir, forwardEnv, w0] at h

/-- C1 (amended): `Wait` returns the NotStarted error exactly when the
`started` flag is unset.  `Start` sets the flag before calling the
strategy's `create`/`run`, so a `Start` that fails in `create` or `run`
leaves the command marked started (and `Wait` then consults the strategy
instead of returning NotStarted); only a failure in the `Dir`/`Env`
forwarding, which precedes the flag, leaves the command unstarted. -/
theorem wait_notStarted_iff_flag_unset {σ : Type} (M : Execution σ)
    (g : GenericCmd) (s : σ) (w : World) :
    (g.started = false → (Wait M g s w).1 = some notStartedErr) ∧
    (∀ e s1, forwardDir M g s = (some e, s1) →
      (Start M g s w).2.1.started = g.started) ∧
    (∀ s1 e s2, forwardDir M g s = (none, s1) → forwardEnv M g s1 = (some e, s2) →
      (Start M g s w).2.1.started = g.started) ∧
    (∀ s1 s2 e s3, g.started = false → forwardDir M g s = (none, s1) →
      forwardEnv M g s1 = (none, s2) → M.create s2 (g.Path :: g.Args) = (some e, s3) →
      (Start M g s w).1 = some e ∧ (Start M g s w).2.1.started = true) ∧
    (∀ s1 s2 s3 e s4 w1, g.started = false → forwardDir M g s = (none, s1) →
      forwardEnv M g s1 = (none, s2) → M.create s2 (g.Path :: g.Args) = (none, s3) →
      M.run s3 (g.Stdin.getD Reader.empty) (g.Stdout.getD Writer.discard)
        (g.Stderr.getD Writer.discard) w = (some e, s4, w1) →
      (Start M g s w).1 = some e ∧ (Start M g s w).2.1.started = true) := by
  refine ⟨?_, ?_, ?_, ?_, ?_⟩
  · intro h
    simp [Wait, h]
  · intro e s1 h
    simp [Start, h]
  · intro s1 e s2 h1 h2
    simp [Start, h1, h2]
  · intro s1 s2 e s3 hst h1 h2 h3
    simp [Start, h1, h2, hst, h3]
  · intro s1 s2 s3 e s4 w1 hst h1 h2 h3 h4
    simp [Start, h1, h2, hst, h3, h4]

/-- C1 (witness for the amended theorem): a never-started command gets
NotStarted from `Wait`, and a `Start` failing in `create` marks the
command started. -/
theorem wait_notStarted_iff_flag_unset_witness :
    (Wait mockCreateFails cmd0 opts0 w0).1 = some notStartedErr ∧
    (Start mockCreateFails cmd0 opts0 w0).1 = some (GError.msg "error creating container") ∧
    (Start mockCreateFails cmd0 opts0 w0).2.1.started = true := by
  refine ⟨(wait_notStarted_iff_flag_unset mockCreateFails cmd0 opts0 w0).1 rfl, ?_, ?_⟩
  · exact ((wait_notStarted_iff_flag_unset mockCreateFails cmd0 opts0 w0).2.2.2.1
      opts0 opts0 (GError.msg "error creating container") opts0 rfl rfl rfl rfl).1
  · exact ((wait_notStarted_iff_flag_unset mockCreateFails cmd0 opts0 w0).2.2.2.1
      opts0 opts0 (GError.msg "error creating container") opts0 rfl rfl rfl rfl).2

/-- C2 (counterexample): a command with a non-empty `Dir`, run against the
containerd strategy.  The first `Start` succeeds; the second `Start`
returns the strategy's "Config.WorkingDir already set" error, not
AlreadyStarted. -/
theorem start_twice_dir_cex :
    firstStartDir.1 = none ∧
    (Start mockOk firstStartDir.2.1 firstStartDir.2.2.1 w0).1 =
      some (GError.msg "dexec: Config.WorkingDir already set") ∧
    (Start mockOk firstStartDir.2.1 firstStartDir.2.2.1 w0).1 ≠
      some alreadyStartedErr := by
  refine ⟨rfl, rfl, ?_⟩
  intro h
  have : (GError.msg "dexec: Config.WorkingDir already set") = alreadyStartedErr := by
    have h1 : (Start mockOk firstStartDir.2.1 firstStartDir.2.2.1 w0).1 =
        some (GError.msg "dexec: Config.WorkingDir already set") := rfl
    exact Option.some_injective _ (h1 ▸ h)
  simp [alreadyStartedErr] at this

/-- C2 (amended): a second `Start` returns AlreadyStarted provided the
`Dir`/`Env` forwarding that precedes the flag check does not fail first —
in particular whenever `Dir` is empty and `Env` is nil.  (With a non-empty
`Dir` the strategy's first-writer-wins error is returned instead; see the
counterexample.) -/
theorem start_twice_alreadyStarted {σ : Type} (M : Execution σ)
    (g : GenericCmd) (s s1 s2 : σ) (w : World)
    (hdir : forwardDir M g s = (none, s1))
    (henv : forwardEnv M g s1 = (none, s2))
    (hst : g.started = true) :
    Start M g s w = (some alreadyStartedErr, g, s2, w) := by
  simp [Start, hdir, henv, hst]

/-- C2 (witness): a started command with empty `Dir` and nil `Env` gets
AlreadyStarted from a second `Start`. -/
theorem start_twice_alreadyStarted_witness :
    Start mockOk cmdStarted opts0 w0 = (some alreadyStartedErr, cmdStarted, opts0, w0) :=
  start_twice_alreadyStarted mockOk cmdStarted opts0 opts0 opts0 w0 rfl rfl rfl

/-- C3: for a started command, `Wait` propagates a non-nil strategy error
verbatim, returns nil on exit code 0, and returns `ExitError{ExitCode=k}`
on any non-zero exit code `k` — and in every case all closers registered
in `closeAfterWait` are closed (appended to the world's close log) before
`Wait` returns. -/
theorem wait_outcome_spec {σ : Type} (M : Execution σ) (g : GenericCmd)
    (s s' : σ) (w : World) (k : Int) (e : Option GError)
    (hst : g.started = true) (hw : M.wait s = (k, e, s')) :
    (∀ er, e = some er →
      Wait M g s w = (some er, g, s', closeFds g.closeAfterWait w)) ∧
    (e = none → k = 0 →
      Wait M g s w = (none, g, s', closeFds g.closeAfterWait w)) ∧
    (e = none → k ≠ 0 →
      Wait M g s w = (some (GError.exit k none), g, s', closeFds g.closeAfterWait w)) ∧
    (Wait M g s w).2.2.2.closed = w.closed ++ g.closeAfterWait := by
  have hcl : ∀ l, (closeFds l w).closed = w.closed ++ l := fun l => rfl
  refine ⟨?_, ?_, ?_, ?_⟩
  · intro er he
    subst he
    simp [Wait, hst, hw]
  · intro he hk
    subst he; subst hk
    simp [Wait, hst, hw]
  · intro he hk
    subst he
    simp [Wait, hst, hw, hk]
  · rcases e with _ | er
    · by_cases hk : k = 0
      · subst hk
        simp [Wait, hst, hw, closeFds]
      · simp [Wait, hst, hw, hk, closeFds]
    · simp [Wait, hst, hw, closeFds]

/-- C3 (witness): a started command whose task exits with code 2 gets
`ExitError{ExitCode:2}` from `Wait`. -/
theorem wait_outcome_spec_witness :
    Wait (ctExec none none (2, none)) cmdStarted opts0 w0 =
      (some (GError.exit 2 none), cmdStarted, opts0,
        closeFds cmdStarted.closeAfterWait w0) :=
  (wait_outcome_spec (ctExec none none (2, none)) cmdStarted opts0 opts0 w0 2 none
    rfl rfl).2.2.1 rfl (by decide)

/-- C10: `Start` forwards `Dir` and `Env` to the strategy's setters before
checking the `started` flag.  Against the containerd strategy: a first
`Start` with a non-empty `Dir` stores it in the options; any later `Start`
(the flag now set) re-invokes `setDir` and returns its first-writer-wins
"Config.WorkingDir already set" error rather than AlreadyStarted; a
started command with a non-nil `Env` and already-populated options
likewise gets the "Config.Env already set" error. -/
theorem start_forwards_setters_before_flag
    (crRes rnRes : Option GError) (wt : Int × Option GError)
    (g : GenericCmd) (opts : CreateTaskOptions) (w : World)
    (hdir : g.Dir ≠ "") (hwd0 : opts.WorkingDir = "") (henv : g.Env = none)
    (hst : g.started = false) (hcr : crRes = none) (hrn : rnRes = none) :
    ((Start (ctExec crRes rnRes wt) g opts w).1 = none ∧
      (Start (ctExec crRes rnRes wt) g opts w).2.2.1.WorkingDir = g.Dir ∧
      (Start (ctExec crRes rnRes wt) g opts w).2.1.Dir = g.Dir ∧
      (Start (ctExec crRes rnRes wt) g opts w).2.1.started = true) ∧
    (∀ (g1 : GenericCmd) (opts1 : CreateTaskOptions) (w1 : World), g1.Dir = g.Dir →
      opts1.WorkingDir = g.Dir →
      (Start (ctExec crRes rnRes wt) g1 opts1 w1).1 =
        some (GError.msg "dexec: Config.WorkingDir already set")) ∧
    (∀ (g2 : GenericCmd) (opts2 : CreateTaskOptions) (w2 : World) (es : List String),
      g2.Dir = "" → g2.Env = some es → opts2.Env ≠ [] →
      (Start (ctExec crRes rnRes wt) g2 opts2 w2).1 =
        some (GError.msg "dexec: Config.Env already set")) ∧
    some (GError.msg "dexec: Config.WorkingDir already set") ≠ some alreadyStartedErr := by
  subst hcr; subst hrn
  refine ⟨?_, ?_, ?_, by simp [alreadyStartedErr]⟩
  · simp [Start, forwardDir, forwardEnv, hdir, henv, hst, ctExec, setDirCT, setEnvCT, hwd0]
  · intro g1 opts1 w1 h1 h2
    simp [Start, forwardDir, h1, hdir, ctExec, setDirCT, h2]
  · intro g2 opts2 w2 es h1 h2 h3
    simp [Start, forwardDir, forwardEnv, h1, h2, ctExec, setDirCT, setEnvCT,
      List.length_pos, h3]

/-- C10 (witness): re-running `Start` on the concrete command from the C2
counterexample scenario yields the WorkingDirAlreadySet error. -/
theorem start_forwards_setters_before_flag_witness :
    firstStartDir.1 = none ∧
    (Start mockOk firstStartDir.2.1 firstStartDir.2.2.1 w0).1 =
      some (GError.msg "dexec: Config.WorkingDir already set") := by
  have h := start_forwards_setters_before_flag none none (0, none)
    { cmd0 with Dir := "/w" } opts0 w0 (by decide) rfl rfl rfl rfl rfl
  exact ⟨h.1.1, h.2.1 firstStartDir.2.1 firstStartDir.2.2.1 w0 rfl rfl⟩

/-- C4: with a stored lease cancellation and context, `cleanup` releases
the lease in every outcome; it returns nil when task delete and container
delete each succeed or fail with NotFound; and a non-NotFound task-delete
error is returned wrapped as "error deleting task" without calling
container delete. -/
theorem cleanup_lease_notFound_shortCircuit (env : CleanupEnv)
    (hdf : env.hasDoneFunc = true) (hctx : env.hasCtx = true) :
    ((cleanupCT env).2.leaseReleased = true) ∧
    ((env.taskDeleteRes = none ∨
        ∃ e, env.taskDeleteRes = some e ∧ e.isNotFound = true) →
      (env.containerDeleteRes = none ∨
        ∃ e2, env.containerDeleteRes = some e2 ∧ e2.isNotFound = true) →
      (cleanupCT env).1 = none) ∧
    (∀ e, env.taskDeleteRes = some e → e.isNotFound = false →
      (cleanupCT env).1 = some (GError.wrapped "error deleting task" e) ∧
      (cleanupCT env).2.containerDeleteCalled = false) := by
  refine ⟨?_, ?_, ?_⟩
  · rcases htd : env.taskDeleteRes with _ | e
    · rcases hcd : env.containerDeleteRes with _ | e2
      · simp [cleanupCT, htd, hcd, hdf, hctx]
      · by_cases h2 : e2.isNotFound <;> simp [cleanupCT, htd, hcd, hdf, hctx, h2]
    · by_cases h1 : e.isNotFound
      · rcases hcd : env.containerDeleteRes with _ | e2
        · simp [cleanupCT, htd, hcd, hdf, hctx, h1]
        · by_cases h2 : e2.isNotFound <;> simp [cleanupCT, htd, hcd, hdf, hctx, h1, h2]
      · simp [cleanupCT, htd, hdf, hctx, h1]
  · rintro (htd | ⟨e, htd, hnf⟩) (hcd | ⟨e2, hcd, hnf2⟩) <;>
      simp [cleanupCT, htd, hcd, *]
  · intro e htd hnf
    simp [cleanupCT, htd, hnf]

/-- C4 (witness): task delete reporting NotFound and container delete
succeeding yields nil with the lease released; a plain task-delete error
short-circuits. -/
theorem cleanup_lease_notFound_shortCircuit_witness :
    (cleanupCT ⟨true, true, false, none, some GError.notFound, none⟩).1 = none ∧
    (cleanupCT ⟨true, true, false, none, some (GError.msg "unit test"), none⟩).1 =
      some (GError.wrapped "error deleting task" (GError.msg "unit test")) ∧
    (cleanupCT ⟨true, true, false, none, some (GError.msg "unit test"), none⟩).2.containerDeleteCalled
      = false := by
  refine ⟨?_, ?_, ?_⟩
  · exact (cleanup_lease_notFound_shortCircuit
      ⟨true, true, false, none, some GError.notFound, none⟩ rfl rfl).2.1
      (Or.inr ⟨GError.notFound, rfl, rfl⟩) (Or.inl rfl)
  · exact ((cleanup_lease_notFound_shortCircuit
      ⟨true, true, false, none, some (GError.msg "unit test"), none⟩ rfl rfl).2.2
      (GError.msg "unit test") rfl rfl).1
  · exact ((cleanup_lease_notFound_shortCircuit
      ⟨true, true, false, none, some (GError.msg "unit test"), none⟩ rfl rfl).2.2
      (GError.msg "unit test") rfl rfl).2

/-- C6: `Output` rejects a command with a pre-set `Stdout`; otherwise it
captures stdout into an internal buffer and, when `Stderr` was nil, also
captures stderr; when the run exits non-zero the resulting `ExitError`
carries the captured stderr bytes (only in the capture case); and the
stdout buffer's bytes are returned.  The process's stream output is
supplied through `mockRunExec`. -/
theorem output_capture_spec {σ : Type} (M : Execution σ)
    (outB errB : List Nat) (k : Int) (g : GenericCmd) (s : σ) (w : World)
    (cid : Nat) :
    (∀ wr, g.Stdout = some wr →
      Output M g s w = (some (GError.msg "dexec: Stdout already set"), [], g, s, w)) ∧
    (g.Stdout = none → g.Stderr = none → g.Dir = "" → g.Env = none →
      g.started = false → k ≠ 0 →
      (Output (mockRunExec outB errB (k, none)) g () w).1 =
        some (GError.exit k (some errB)) ∧
      (Output (mockRunExec outB errB (k, none)) g () w).2.1 = outB) ∧
    (g.Stdout = none → g.Stderr = some (Writer.caller cid) → g.Dir = "" →
      g.Env = none → g.started = false → k ≠ 0 →
      (Output (mockRunExec outB errB (k, none)) g () w).1 =
        some (GError.exit k none) ∧
      (Output (mockRunExec outB errB (k, none)) g () w).2.1 = outB) := by
  have hne : g.fresh + 1 ≠ g.fresh := Nat.succ_ne_self g.fresh
  have hne2 : g.fresh ≠ g.fresh + 1 := fun h => hne h.symm
  refine ⟨?_, ?_, ?_⟩
  · intro wr hwr
    simp [Output, hwr]
  · intro hOut hErr hDir hEnv hSt hk
    simp [Output, Run, Start, Wait, forwardDir, forwardEnv, mockRunExec,
      World.write, closeFds, hOut, hErr, hDir, hEnv, hSt, hk, hne, hne2]
  · intro hOut hErr hDir hEnv hSt hk
    simp [Output, Run, Start, Wait, forwardDir, forwardEnv, mockRunExec,
      World.write, closeFds, hOut, hErr, hDir, hEnv, hSt, hk, hne, hne2]

/-- C6 (witness): with stderr bytes `[98, 111, 111, 109]` ("boom") and
exit code 1, `Output` returns the stdout bytes and
`ExitError{ExitCode:1, Stderr:"boom"}`. -/
theorem output_capture_spec_witness :
    (Output (mockRunExec [104, 105] [98, 111, 111, 109] (1, none)) cmd0 () w0).1 =
      some (GError.exit 1 (some [98, 111, 111, 109])) ∧
    (Output (mockRunExec [104, 105] [98, 111, 111, 109] (1, none)) cmd0 () w0).2.1 =
      [104, 105] :=
  (output_capture_spec (mockRunExec [104, 105] [98, 111, 111, 109] (1, none))
    [104, 105] [98, 111, 111, 109] 1 cmd0 () w0 0).2.1
    rfl rfl rfl rfl rfl (by decide)

/-- C7: `StdoutPipe`/`StderrPipe` append their freshly created writer end
to `closeAfterWait` (exactly one registration, given that all previously
registered pipe ids are older); `Wait` closes precisely the writers in
`closeAfterWait`, once each, in every outcome; `StdinPipe` never touches
`closeAfterWait` (its writer is left for the caller to close); `Start`
does not alter `closeAfterWait`; and whenever `closeAfterWait` holds only
library-created pipe writers, everything `Wait` closes is a pipe writer —
caller-supplied sinks are never closed. -/
theorem pipe_closers_spec {σ : Type} (M : Execution σ)
    (g gO gE gI : GenericCmd) (s : σ) (w : World) :
    (gO.Stdout = none →
      (StdoutPipe gO).2.2.closeAfterWait = gO.closeAfterWait ++ [Writer.pipeW gO.fresh] ∧
      (StdoutPipe gO).2.1 = some (Reader.pipeR gO.fresh, Writer.pipeW gO.fresh) ∧
      (StdoutPipe gO).2.2.Stdout = some (Writer.pipeW gO.fresh) ∧
      ((∀ i, Writer.pipeW i ∈ gO.closeAfterWait → i < gO.fresh) →
        ((StdoutPipe gO).2.2.closeAfterWait).count (Writer.pipeW gO.fresh) = 1)) ∧
    (gE.Stderr = none →
      (StderrPipe gE).2.2.closeAfterWait = gE.closeAfterWait ++ [Writer.pipeW gE.fresh] ∧
      (StderrPipe gE).2.1 = some (Reader.pipeR gE.fresh, Writer.pipeW gE.fresh) ∧
      (StderrPipe gE).2.2.Stderr = some (Writer.pipeW gE.fresh)) ∧
    ((Wait M g s w).2.2.2.closed = w.closed ++ g.closeAfterWait) ∧
    (gI.Stdin = none →
      (StdinPipe gI).2.2.closeAfterWait = gI.closeAfterWait ∧
      (StdinPipe gI).2.1 = some (Reader.pipeR gI.fresh, Writer.pipeW gI.fresh) ∧
      ((∀ i, Writer.pipeW i ∈ gI.closeAfterWait → i < gI.fresh) →
        Writer.pipeW gI.fresh ∉ (StdinPipe gI).2.2.closeAfterWait)) ∧
    ((Start M g s w).2.1.closeAfterWait = g.closeAfterWait) ∧
    ((∀ wr ∈ g.closeAfterWait, ∃ i, wr = Writer.pipeW i) →
      ∀ wr ∈ (Wait M g s w).2.2.2.closed,
        wr ∈ w.closed ∨ ∃ i, wr = Writer.pipeW i) := by
  have hclosed : (Wait M g s w).2.2.2.closed = w.closed ++ g.closeAfterWait := by
    rcases hst : g.started with _ | _
    · simp [Wait, hst, closeFds]
    · rcases hw : M.wait s with ⟨k, e, s'⟩
      rcases e with _ | er
      · by_cases hk : k = 0
        · subst hk
          simp [Wait, hst, hw, closeFds]
        · simp [Wait, hst, hw, hk, closeFds]
      · simp [Wait, hst, hw, closeFds]
  refine ⟨?_, ?_, hclosed, ?_, ?_, ?_⟩
  · intro hO
    refine ⟨by simp [StdoutPipe, hO], by simp [StdoutPipe, hO],
      by simp [StdoutPipe, hO], ?_⟩
    intro hfr
    have h0 : (gO.closeAfterWait).count (Writer.pipeW gO.fresh) = 0 := by
      rw [List.count_eq_zero]
      intro hmem
      exact absurd (hfr _ hmem) (lt_irrefl _)
    simp [StdoutPipe, hO, List.count_append, h0]
  · intro hE
    exact ⟨by simp [StderrPipe, hE], by simp [StderrPipe, hE],
      by simp [StderrPipe, hE]⟩
  · intro hI
    refine ⟨by simp [StdinPipe, hI], by simp [StdinPipe, hI], ?_⟩
    intro hfr hmem
    have : (StdinPipe gI).2.2.closeAfterWait = gI.closeAfterWait := by
      simp [StdinPipe, hI]
    rw [this] at hmem
    exact absurd (hfr _ hmem) (lt_irrefl _)
  · rcases hd : forwardDir M g s with ⟨e1, s1⟩
    rcases e1 with _ | e1
    · rcases he : forwardEnv M g s1 with ⟨e2, s2⟩
      rcases e2 with _ | e2
      · rcases hst : g.started with _ | _
        · rcases hc : M.create s2 (g.Path :: g.Args) with ⟨e3, s3⟩
          rcases e3 with _ | e3
          · rcases hr : M.run s3 (g.Stdin.getD Reader.empty) (g.Stdout.getD Writer.discard)
              (g.Stderr.getD Writer.discard) w with ⟨e4, s4, w4⟩
            simp [Start, hd, he, hst, hc, hr]
          · simp [Start, hd, he, hst, hc]
        · simp [Start, hd, he, hst]
      · simp [Start, hd, he]
    · simp [Start, hd]
  · intro hpipes wr hwr
    rw [hclosed] at hwr
    rcases List.mem_append.mp hwr with h | h
    · exact Or.inl h
    · exact Or.inr (hpipes wr h)

/-- C7 (witness): on a fresh command, `StdoutPipe` registers pipe writer 0
exactly once, `StdinPipe` registers nothing, and a `Wait` closes exactly
the registered writer. -/
theorem pipe_closers_spec_witness :
    (StdoutPipe cmd0).2.2.closeAfterWait = [Writer.pipeW 0] ∧
    ((StdoutPipe cmd0).2.2.closeAfterWait).count (Writer.pipeW 0) = 1 ∧
    (StdinPipe cmd0).2.2.closeAfterWait = [] ∧
    (Wait mockOk (StdoutPipe cmd0).2.2 opts0 w0).2.2.2.closed = [Writer.pipeW 0] := by
  have h := pipe_closers_spec mockOk (StdoutPipe cmd0).2.2 cmd0 cmd0 cmd0 opts0 w0
  refine ⟨(h.1 rfl).1, ?_, (h.2.2.2.1 rfl).1, ?_⟩
  · have := (h.1 rfl).2.2.2 (by intro i hmem; simp [cmd0] at hmem)
    simpa [cmd0] using this
  · have := h.2.2.1
    simpa [w0, cmd0, StdoutPipe] using this

/-- The appending loop of `filterMounts[docker.HostMount]` is the filter
dropping resolv.conf mounts. -/
theorem filterMountsDocker_eq_filter (ms : List Mount) :
    filterMountsDocker ms =
      ms.filter (fun m => !(strContains m.Destination "resolv.conf")) := by
  have aux : ∀ (l acc : List Mount),
      l.foldl (fun acc m =>
        if strContains m.Destination "resolv.conf" then acc else acc ++ [m]) acc
        = acc ++ l.filter (fun m => !(strContains m.Destination "resolv.conf")) := by
    intro l
    induction l with
    | nil => intro acc; simp
    | cons m t ih =>
      intro acc
      by_cases h : strContains m.Destination "resolv.conf" <;>
        simp [h, ih, List.filter_cons]
  simpa [filterMountsDocker] using aux ms []

/-- C8: translating a neutral mount to the OCI shape preserves Type,
Source, Destination and Options exactly (the OCI shape round-trips
through the neutral form); the daemon shape sets `Target = Destination`
and discards Options; and the daemon pipeline filters out every mount
whose destination contains "resolv.conf" before translating, while the
containerd pipeline translates all mounts. -/
theorem mount_translation_spec (ms : List Mount) (m : Mount)
    (sm : SpecsMount) (o : List String) :
    convertMountOCI (neutralOfSpecsMount sm) = sm ∧
    neutralOfSpecsMount (convertMountOCI m) = m ∧
    (convertMountDocker m).Target = m.Destination ∧
    convertMountDocker { m with Options := o } = convertMountDocker m ∧
    dockerMountsOf ms =
      (ms.filter (fun mm => !(strContains mm.Destination "resolv.conf"))).map
        convertMountDocker ∧
    (∀ mm ∈ filterMountsDocker ms, strContains mm.Destination "resolv.conf" = false) ∧
    containerdMountsOf ms = ms.map convertMountOCI := by
  refine ⟨rfl, rfl, rfl, rfl, ?_, ?_, rfl⟩
  · rw [dockerMountsOf, filterMountsDocker_eq_filter]
  · intro mm hmm
    rw [filterMountsDocker_eq_filter] at hmm
    have := (List.mem_filter.mp hmm).2
    simpa using this

/-- C8 (witness): the bind-mount fixture survives the daemon filter (its
destination does not mention resolv.conf) and an OCI mount round-trips
unchanged. -/
theorem mount_translation_spec_witness :
    strContains (Mount.mk "bind" "/local/path" "/go/src" ["bind"]).Destination
      "resolv.conf" = false ∧
    convertMountOCI (neutralOfSpecsMount ⟨"bind", "/local/path", "/go/src", ["bind"]⟩) =
      ⟨"bind", "/local/path", "/go/src", ["bind"]⟩ :=
  ⟨(mount_translation_spec [⟨"bind", "/local/path", "/go/src", ["bind"]⟩]
      ⟨"bind", "/local/path", "/go/src", ["bind"]⟩
      ⟨"bind", "/local/path", "/go/src", ["bind"]⟩ []).2.2.2.2.2.1
      ⟨"bind", "/local/path", "/go/src", ["bind"]⟩ (by decide),
    (mount_translation_spec [] ⟨"bind", "/local/path", "/go/src", ["bind"]⟩
      ⟨"bind", "/local/path", "/go/src", ["bind"]⟩ []).1⟩

/-- C9: the stats loop passes the `chains/deadline` label value to
`time.Parse` in the LAYOUT position (`time.Parse(deadline, time.RFC3339)`)
instead of parsing the value against the RFC3339 layout.  For a container
whose deadline label is a valid RFC3339 instant lying in the past (i.e.
`parse rfc3339Layout d = some t` with `t < now`), the swapped call fails
(`parse d rfc3339Layout = none`), so the loop increments `Errors` and
leaves `DeadlineExceeded` at zero — the code contradicts the claimed
(and documented) behaviour. -/
theorem stats_deadline_swapped (parse : String → String → Option Int)
    (now t : Int) (d : String)
    (hspec : parse rfc3339Layout d = some t) (hpast : t < now)
    (hcode : parse d rfc3339Layout = none) :
    getContainerdStats parse now [⟨some [("chains/deadline", d)], some (some .running)⟩] =
      { Running := 1, Errors := 1 } := by
  simp [getContainerdStats, statsStep, deadlineStep, statusStep, lookupLabel, hcode]

/-- C9 (witness): a parse oracle honouring Go's layout-first signature on
the relevant inputs, a past deadline `"2020-01-02T03:04:05Z"`, and the
resulting stats: one running container, one error, no deadline
exceeded. -/
theorem stats_deadline_swapped_witness :
    getContainerdStats
      (fun l _ => if l = rfc3339Layout then some 0 else none) 1
      [⟨some [("chains/deadline", "2020-01-02T03:04:05Z")], some (some .running)⟩] =
      { Running := 1, Errors := 1 } :=
  stats_deadline_swapped (fun l _ => if l = rfc3339Layout then some 0 else none)
    1 0 "2020-01-02T03:04:05Z" (by decide) (by decide) (by decide)

/-- In the exactly-representable range the float round-trip in `abs` is
the identity, so `abs` is the true absolute value. -/
theorem goAbs_eq_natAbs (v : Int) (h : -(2 ^ 53) ≤ v) :
    goAbs v = (v.natAbs : Int) := by
  by_cases h0 : 0 ≤ v
  · rw [goAbs, if_pos h0, Int.natAbs_of_nonneg h0]
  · have hlt : v < 0 := Int.not_le.mp h0
    have habs : v.natAbs ≤ 2 ^ 53 := by
      have h2 : -(2 ^ 53 : Int) ≤ v := by
        have : ((2 ^ 53 : Nat) : Int) = (2 ^ 53 : Int) := by norm_num
        omega
      omega
    rw [goAbs, if_neg h0]
    have hr : roundNat53 v.natAbs = v.natAbs := by
      rw [roundNat53, if_pos habs]
    rw [hr]
    have hle : v.natAbs ≤ 2 ^ 63 - 1 := le_trans habs (by norm_num)
    rw [if_pos hle]

/-- Decimal digit characters are digits. -/
theorem digitChar_isDigit : ∀ m : Nat, m < 10 → (Nat.digitChar m).isDigit = true := by
  decide

/-- Every character `Nat.toDigitsCore` emits (past the accumulator) is a
decimal digit. -/
theorem toDigitsCore_isDigit :
    ∀ (fuel n : Nat) (acc : List Char), (∀ c ∈ acc, c.isDigit = true) →
      ∀ c ∈ Nat.toDigitsCore 10 fuel n acc, c.isDigit = true := by
  intro fuel
  induction fuel with
  | zero =>
    intro n acc hacc c hc
    simp only [Nat.toDigitsCore] at hc
    exact hacc c hc
  | succ f ih =>
    intro n acc hacc c hc
    simp only [Nat.toDigitsCore] at hc
    have hd : (Nat.digitChar (n % 10)).isDigit = true :=
      digitChar_isDigit _ (Nat.mod_lt n (by norm_num))
    have hacc' : ∀ c ∈ Nat.digitChar (n % 10) :: acc, c.isDigit = true := by
      intro c' hc'
      rcases List.mem_cons.mp hc' with h | h
      · rw [h]; exact hd
      · exact hacc c' h
    by_cases h : n / 10 = 0
    · rw [if_pos h] at hc
      exact hacc' c hc
    · rw [if_neg h] at hc
      exact ih _ _ hacc' c hc

/-- Lemma: `Nat.toDigitsCore` never shrinks the accumulator. -/
theorem toDigitsCore_length_ge :
    ∀ (fuel n : Nat) (acc : List Char),
      acc.length ≤ (Nat.toDigitsCore 10 fuel n acc).length := by
  intro fuel
  induction fuel with
  | zero =>
    intro n acc
    simp [Nat.toDigitsCore]
  | succ f ih =>
    intro n acc
    simp only [Nat.toDigitsCore]
    by_cases h : n / 10 = 0
    · rw [if_pos h]
      simp
    · rw [if_neg h]
      calc acc.length ≤ (Nat.digitChar (n % 10) :: acc).length := by simp
        _ ≤ _ := ih _ _

/-- The characters of `Nat.repr` are decimal digits. -/
theorem repr_data_isDigit (n : Nat) : ∀ c ∈ (Nat.repr n).data, c.isDigit = true := by
  intro c hc
  have hdata : (Nat.repr n).data = Nat.toDigitsCore 10 (n + 1) n [] := rfl
  rw [hdata] at hc
  exact toDigitsCore_isDigit (n + 1) n [] (by intro c' hc'; cases hc') c hc

/-- Lemma: `Nat.repr` is never the empty string. -/
theorem repr_data_ne_nil (n : Nat) : (Nat.repr n).data ≠ [] := by
  have hdata : (Nat.repr n).data = Nat.toDigitsCore 10 (n + 1) n [] := rfl
  rw [hdata]
  simp only [Nat.toDigitsCore]
  by_cases h : n / 10 = 0
  · rw [if_pos h]
    simp
  · rw [if_neg h]
    intro hnil
    have := toDigitsCore_length_ge n (n / 10) [Nat.digitChar (n % 10)]
    rw [hnil] at this
    simp at this

/-- Lemma: `takeWhile isDigit` consumes an all-digit block up to a hyphen. -/
theorem takeWhile_digits_append (ds rest : List Char)
    (hds : ∀ c ∈ ds, c.isDigit = true) :
    (ds ++ '-' :: rest).takeWhile Char.isDigit = ds := by
  induction ds with
  | nil =>
    simp [List.takeWhile_cons_of_neg (by decide : ¬('-'.isDigit = true))]
  | cons c t ih =>
    rw [List.cons_append,
      List.takeWhile_cons_of_pos (hds c (List.mem_cons_self c t)),
      ih (fun c' hc' => hds c' (List.mem_cons_of_mem c hc'))]

/-- Lemma: `dropWhile isDigit` stops exactly at the hyphen. -/
theorem dropWhile_digits_append (ds rest : List Char)
    (hds : ∀ c ∈ ds, c.isDigit = true) :
    (ds ++ '-' :: rest).dropWhile Char.isDigit = '-' :: rest := by
  induction ds with
  | nil =>
    simp [List.dropWhile_cons_of_neg (by decide : ¬('-'.isDigit = true))]
  | cons c t ih =>
    rw [List.cons_append,
      List.dropWhile_cons_of_pos (hds c (List.mem_cons_self c t)),
      ih (fun c' hc' => hds c' (List.mem_cons_of_mem c hc'))]

/-- Lemma: `digitsThenDash` consumes a nonempty digit block and its hyphen. -/
theorem digitsThenDash_append (ds rest : List Char)
    (hds : ∀ c ∈ ds, c.isDigit = true) (hne : ds ≠ []) :
    digitsThenDash (ds ++ '-' :: rest) = some rest := by
  rw [digitsThenDash, takeWhile_digits_append ds rest hds,
    dropWhile_digits_append ds rest hds]
  cases ds with
  | nil => exact absurd rfl hne
  | cons c t => rfl

/-- The matcher accepts three nonempty digit blocks and a 6-letter
suffix. -/
theorem matchesChainsTail_of (d1 d2 d3 sfx : List Char)
    (h1 : ∀ c ∈ d1, c.isDigit = true) (hne1 : d1 ≠ [])
    (h2 : ∀ c ∈ d2, c.isDigit = true) (hne2 : d2 ≠ [])
    (h3 : ∀ c ∈ d3, c.isDigit = true) (hne3 : d3 ≠ [])
    (hlen : sfx.length = 6) (halpha : sfx.all Char.isAlpha = true) :
    matchesChainsTail (d1 ++ '-' :: (d2 ++ '-' :: (d3 ++ '-' :: sfx))) = true := by
  simp only [matchesChainsTail, digitsThenDash_append d1 _ h1 hne1,
    digitsThenDash_append d2 _ h2 hne2, digitsThenDash_append d3 _ h3 hne3]
  simp [hlen, halpha]

/-- A block of non-hyphen characters cannot start a `--` occurrence. -/
theorem containsSub_all_ne (ds : List Char) (hds : ∀ c ∈ ds, c ≠ '-')
    (rest : List Char) (hrest : containsSub rest ['-', '-'] = false) :
    containsSub (ds ++ rest) ['-', '-'] = false := by
  induction ds with
  | nil => simpa using hrest
  | cons c t ih =>
    have hc : c ≠ '-' := hds c (List.mem_cons_self c t)
    have ht : containsSub (t ++ rest) ['-', '-'] = false :=
      ih (fun c' hc' => hds c' (List.mem_cons_of_mem c hc'))
    rw [List.cons_append, containsSub]
    have hpre : (['-', '-'].isPrefixOf (c :: (t ++ rest))) = false := by
      simp [List.isPrefixOf]
      intro h
      exact absurd h.symm hc
    rw [hpre, ht]
    rfl

/-- A hyphen followed by a nonempty non-hyphen block followed by a
`--`-free remainder is `--`-free. -/
theorem noDD_seg (ds : List Char) (hne : ds ≠ []) (hds : ∀ c ∈ ds, c ≠ '-')
    (rest : List Char) (hrest : containsSub rest ['-', '-'] = false) :
    containsSub ('-' :: (ds ++ rest)) ['-', '-'] = false := by
  cases ds with
  | nil => exact absurd rfl hne
  | cons c t =>
    have hc : c ≠ '-' := hds c (List.mem_cons_self c t)
    have h2 : containsSub ((c :: t) ++ rest) ['-', '-'] = false :=
      containsSub_all_ne (c :: t) hds rest hrest
    rw [containsSub]
    have hpre : (['-', '-'].isPrefixOf ('-' :: (c :: t ++ rest))) = false := by
      simp [List.isPrefixOf]
      intro h
      exact absurd h.symm hc
    rw [hpre, h2]
    rfl

/-- Digits are not hyphens. -/
theorem isDigit_ne_hyphen (c : Char) (h : c.isDigit = true) : c ≠ '-' := by
  intro he
  rw [he] at h
  exact absurd h (by decide)

/-- Letters are not hyphens. -/
theorem isAlpha_ne_hyphen (c : Char) (h : c.isAlpha = true) : c ≠ '-' := by
  intro he
  rw [he] at h
  exact absurd h (by decide)

/-- Rendering a cast natural renders the natural. -/
theorem toString_intCast_nat (n : Nat) : toString ((n : Int)) = Nat.repr n := rfl

/-- C5 (counterexample): at `ChainExecutorId = -(2^62 + 1)` the float64
round-trip inside `abs` rounds the magnitude down to `2^62`, so the
generated name does not embed the absolute value of the identity field as
the claim requires (the suffix "abcdef" being a 6-letter token). -/
theorem generateContainerId_cex :
    generateContainerId ⟨0, -4611686018427387905, 0⟩ "abcdef" ≠
      "chains-" ++ Nat.repr ((-4611686018427387905 : Int)).natAbs ++
        "-0-0-abcdef" ∧
    generateContainerId ⟨0, -4611686018427387905, 0⟩ "abcdef" =
      "chains-4611686018427387904-0-0-abcdef" ∧
    Nat.repr ((-4611686018427387905 : Int)).natAbs = "4611686018427387905" := by
  refine ⟨?_, by decide, by decide⟩
  decide

/-- C5 (amended): for identity components that are non-negative or of
magnitude at most `2^53` (exactly representable in a float64, so the
`abs` round-trip is lossless) and any 6-letter suffix, the generated
container name is `chains-` followed by the three absolute values and the
suffix; it matches `chains-\d+-\d+-\d+-[A-Za-z]{6}` and contains no
`--`. -/
theorem generateContainerId_amended (a b c : Int) (sfx : String)
    (ha : -(2 ^ 53) ≤ a) (hb : -(2 ^ 53) ≤ b) (hc : -(2 ^ 53) ≤ c)
    (hlen : sfx.data.length = 6) (halpha : sfx.data.all Char.isAlpha = true) :
    generateContainerId ⟨b, a, c⟩ sfx =
      "chains-" ++ Nat.repr a.natAbs ++ "-" ++ Nat.repr b.natAbs ++ "-" ++
        Nat.repr c.natAbs ++ "-" ++ sfx ∧
    matchesChainsName (generateContainerId ⟨b, a, c⟩ sfx) = true ∧
    strContains (generateContainerId ⟨b, a, c⟩ sfx) "--" = false := by
  have halpha' : ∀ ch ∈ sfx.data, ch.isAlpha = true := by
    intro ch hch
    exact List.all_eq_true.mp halpha ch hch
  have hsfx_ne : ∀ ch ∈ sfx.data, ch ≠ '-' :=
    fun ch hch => isAlpha_ne_hyphen ch (halpha' ch hch)
  have heq : generateContainerId ⟨b, a, c⟩ sfx =
      "chains-" ++ Nat.repr a.natAbs ++ "-" ++ Nat.repr b.natAbs ++ "-" ++
        Nat.repr c.natAbs ++ "-" ++ sfx := by
    simp only [generateContainerId]
    rw [goAbs_eq_natAbs a ha, goAbs_eq_natAbs b hb, goAbs_eq_natAbs c hc,
      toString_intCast_nat, toString_intCast_nat, toString_intCast_nat]
  have hdata : (generateContainerId ⟨b, a, c⟩ sfx).data =
      'c' :: 'h' :: 'a' :: 'i' :: 'n' :: 's' :: '-' ::
        ((Nat.repr a.natAbs).data ++ '-' :: ((Nat.repr b.natAbs).data ++ '-' ::
          ((Nat.repr c.natAbs).data ++ '-' :: sfx.data))) := by
    rw [heq]
    simp [String.data_append]
  refine ⟨heq, ?_, ?_⟩
  · rw [matchesChainsName, hdata]
    exact matchesChainsTail_of _ _ _ _
      (repr_data_isDigit a.natAbs) (repr_data_ne_nil a.natAbs)
      (repr_data_isDigit b.natAbs) (repr_data_ne_nil b.natAbs)
      (repr_data_isDigit c.natAbs) (repr_data_ne_nil c.natAbs)
      hlen halpha
  · rw [strContains, hdata]
    have hsfxpart : containsSub ('-' :: sfx.data) ['-', '-'] = false := by
      have hne : sfx.data ≠ [] := by
        intro h
        rw [h] at hlen
        exact absurd hlen (by decide)
      have := noDD_seg sfx.data hne hsfx_ne [] rfl
      simpa using this
    have h3 : containsSub ('-' :: ((Nat.repr c.natAbs).data ++ '-' :: sfx.data))
        ['-', '-'] = false :=
      noDD_seg _ (repr_data_ne_nil c.natAbs)
        (fun ch hch => isDigit_ne_hyphen ch (repr_data_isDigit c.natAbs ch hch))
        _ hsfxpart
    have h2 : containsSub ('-' :: ((Nat.repr b.natAbs).data ++ '-' ::
        ((Nat.repr c.natAbs).data ++ '-' :: sfx.data))) ['-', '-'] = false :=
      noDD_seg _ (repr_data_ne_nil b.natAbs)
        (fun ch hch => isDigit_ne_hyphen ch (repr_data_isDigit b.natAbs ch hch))
        _ h3
    have h1 : containsSub ('-' :: ((Nat.repr a.natAbs).data ++ '-' ::
        ((Nat.repr b.natAbs).data ++ '-' ::
          ((Nat.repr c.natAbs).data ++ '-' :: sfx.data)))) ['-', '-'] = false :=
      noDD_seg _ (repr_data_ne_nil a.natAbs)
        (fun ch hch => isDigit_ne_hyphen ch (repr_data_isDigit a.natAbs ch hch))
        _ h2
    have := containsSub_all_ne ['c', 'h', 'a', 'i', 'n', 's'] (by decide) _ h1
    simpa using this

/-- C5 (witness for the amended theorem): the identity triple
`(ChainExecutorId:-1, ExecutorId:2, ResultId:3)` with suffix "abcdef"
produces `chains-1-2-3-abcdef`, which matches the pattern and has no
`--`. -/
theorem generateContainerId_amended_witness :
    generateContainerId ⟨2, -1, 3⟩ "abcdef" =
      "chains-" ++ Nat.repr ((-1 : Int)).natAbs ++ "-" ++
        Nat.repr ((2 : Int)).natAbs ++ "-" ++ Nat.repr ((3 : Int)).natAbs ++
        "-" ++ "abcdef" ∧
    matchesChainsName (generateContainerId ⟨2, -1, 3⟩ "abcdef") = true ∧
    strContains (generateContainerId ⟨2, -1, 3⟩ "abcdef") "--" = false :=
  generateContainerId_amended (-1) 2 3 "abcdef" (by norm_num) (by norm_num)
    (by norm_num) rfl rfl

end Dexec
